import Mathlib

/-!
Shallow embedding of the core buffer/recommendation pipeline of the
aiStokTOC repository (backend/src/modules): dates are modelled at day
granularity as integers, database tables as lists of rows or as functions
from keys to optional rows, and JS numbers as rationals.
-/

/-- JS `Math.round`: round half toward positive infinity. -/
def jsRound (x : ℚ) : ℤ := ⌊x + 1/2⌋

/-- Function `roundNumber(value, precision)` from recommendations/service.ts:
`Math.round(value * 10^p) / 10^p`. -/
def roundNumber (v : ℚ) (p : Nat) : ℚ := (jsRound (v * 10 ^ p) : ℚ) / 10 ^ p

/-- One `sales_daily` rollup row as read by `recalcBuffers` (org and
warehouse are fixed by the call and omitted). -/
structure SalesDailyRow where
  sku : String
  day : ℤ
  units : ℚ
deriving DecidableEq, Repr

/-- The rollup rows of one SKU inside the lookback window
(`date ≥ sinceDate`, with no upper bound, as in buffers.ts). -/
def demandRowsFor (rows : List SalesDailyRow) (lo : ℤ) (sku : String) :
    List SalesDailyRow :=
  rows.filter (fun r => decide (lo ≤ r.day) && decide (r.sku = sku))

/-- Prisma `groupBy _avg.units`: mean of `units` over the rows present
for the SKU in the window (sum divided by the number of rollup rows). -/
def avgUnits (rows : List SalesDailyRow) (lo : ℤ) (sku : String) : ℚ :=
  ((demandRowsFor rows lo sku).map SalesDailyRow.units).sum /
    ((demandRowsFor rows lo sku).length : ℚ)

/-- The SKUs returned by the `groupBy` in `recalcBuffers`: every SKU with
at least one rollup row in the window. -/
def demandSkus (rows : List SalesDailyRow) (lo : ℤ) : List String :=
  ((rows.filter (fun r => decide (lo ≤ r.day))).map SalesDailyRow.sku).dedup

/-- One `buffers` row (org/warehouse fixed, numeric fields only). -/
structure Buffer where
  leadTimeDays : ℚ
  avgDailyDemand : ℚ
  bufferQty : ℚ
  redTh : ℚ
  yellowTh : ℚ
deriving DecidableEq, Repr

/-- The buffer written by `recalcBuffers` for a grouped row:
`leadTimeDays = DEFAULT_LEAD_TIME_DAYS = 7`, `bufferQty = avg * 7 * 1.2`,
`red_th = bufferQty / 3`, `yellow_th = bufferQty * 2 / 3`. -/
def mkBuffer (avg : ℚ) : Buffer :=
  let leadTimeDays : ℚ := 7
  let bufferQty := avg * leadTimeDays * (6/5)
  { leadTimeDays := leadTimeDays
    avgDailyDemand := avg
    bufferQty := bufferQty
    redTh := bufferQty / 3
    yellowTh := bufferQty * 2 / 3 }

/-- Embedding of `recalcBuffers` from calculations/buffers.ts, as a transformer of the
buffers table (a map from SKU to its optional row): if the `groupBy`
returns no row it returns `{updated: 0}` without touching the table;
otherwise it upserts one row per grouped SKU and reports the count. -/
def recalcBuffers (rows : List SalesDailyRow) (lo : ℤ)
    (t : String → Option Buffer) : (String → Option Buffer) × Nat :=
  let skus := demandSkus rows lo
  if skus.isEmpty then (t, 0)
  else
    (fun s => if s ∈ skus then some (mkBuffer (avgUnits rows lo s)) else t s,
     skus.length)

/-- Red/yellow/green zones. -/
inductive Zone
  | red
  | yellow
  | green
deriving DecidableEq, Repr

/-- Function `resolveZone` from recommendations/service.ts. -/
def resolveZone (onHand red yellow : ℚ) : Zone :=
  if onHand ≤ red then Zone.red
  else if onHand ≤ yellow then Zone.yellow
  else Zone.green

/-- ABC segment. -/
inductive Segment
  | A
  | B
  | C
deriving DecidableEq, Repr

/-- Function `classifySegment` from recommendations/service.ts. -/
def classifySegment (avg : ℚ) : Segment :=
  if 20 ≤ avg then Segment.A
  else if 10 ≤ avg then Segment.B
  else Segment.C

/-- The overstock signal from `detectOverstock` (ratio rounded to 2
decimals; `percent` is the `Math.round(ratio * 100)` used in the message). -/
structure Overstock where
  ratio : ℚ
  percent : ℤ
deriving DecidableEq, Repr

/-- Function `detectOverstock` from recommendations/service.ts. -/
def detectOverstock (onHand avg : ℚ) : Option Overstock :=
  if avg ≤ 0 then none
  else
    let demand30 := avg * 30
    if demand30 ≤ 0 then none
    else
      let ratio := onHand / demand30
      if ratio ≤ 11/10 then none
      else some { ratio := roundNumber ratio 2, percent := jsRound ( ratio * 100) }

/-- Stock position as written out in assistant/payload.ts
(`onHand + inbound - reservations`); getRecommendations uses it with
`inbound = 0` and reservations absent (i.e. 0). -/
def stockPosition (onHand inbound reservations : ℚ) : ℚ :=
  onHand + inbound - reservations

/-- One row of the recommendations response (string fields dropped). -/
structure RecommendationRow where
  sku : String
  segment : Segment
  zone : Zone
  target : ℚ
  onHand : ℚ
  inbound : ℚ
  suggestedQty : ℤ
  overstock : Option Overstock
  avgDailyDemand : ℚ
  leadTimeDays : ℚ
  daysOfSupply : Option ℚ
  bufferPenetration : Option ℚ
  monthlyDemand : ℚ
deriving DecidableEq, Repr

/-- The per-buffer mapping inside `getRecommendations`
(recommendations/service.ts lines 137-176): `inbound` is hard-coded 0,
`orderRaw = target - (onHand + inbound)`,
`suggestedQty = max(0, ceil(orderRaw))`. -/
def recommendationRow (sku : String) (buffer : Buffer) (onHand : ℚ) :
    RecommendationRow :=
  let inbound : ℚ := 0
  let target := buffer.bufferQty
  let orderRaw := target - (onHand + inbound)
  let suggestedQty : ℤ := max 0 ⌈orderRaw⌉
  let zone := resolveZone onHand buffer.redTh buffer.yellowTh
  let avg := buffer.avgDailyDemand
  { sku := sku
    segment := classifySegment avg
    zone := zone
    target := roundNumber target 1
    onHand := roundNumber onHand 1
    inbound := inbound
    suggestedQty := suggestedQty
    overstock := detectOverstock onHand avg
    avgDailyDemand := roundNumber avg 1
    leadTimeDays := roundNumber buffer.leadTimeDays 1
    daysOfSupply := if 0 < avg then some (roundNumber (onHand / avg) 1) else none
    bufferPenetration :=
      if 0 < target then some (roundNumber ((onHand + inbound) / target) 2) else none
    monthlyDemand := roundNumber (avg * 30) 1 }

/-- One `stock_snapshots` row (org/warehouse fixed). -/
structure StockSnapshot where
  sku : String
  day : ℤ
  batch : String
  qty : ℚ
deriving DecidableEq, Repr

/-- Query `fetchStockRows` for one day: snapshots of that day whose SKU is in
the requested list (the Prisma filter `gte dayStart, lt dayEnd` at day
granularity is equality on the day). -/
def snapsAt (snaps : List StockSnapshot) (skuList : List String) (d : ℤ) :
    List StockSnapshot :=
  snaps.filter (fun s => decide (s.day = d) && decide (s.sku ∈ skuList))

/-- The fallback query (`findFirst` ordered by date descending with
`date ≤ bound`, no SKU filter): the greatest snapshot day `≤ bound` for
the warehouse as a whole. -/
def latestDateLE (snaps : List StockSnapshot) (bound : ℤ) : Option ℤ :=
  ((snaps.filter (fun s => decide (s.day ≤ bound))).map StockSnapshot.day).max?

/-- The effective-date/stock-rows resolution of `getRecommendations`
(lines 86-114): try the requested day, else fall back to the latest
warehouse snapshot day `≤ dayEnd` (= requested day + 1). -/
def resolveStock (snaps : List StockSnapshot) (skuList : List String)
    (reqDay : ℤ) : Option ℤ × List StockSnapshot :=
  let dayRows := snapsAt snaps skuList reqDay
  if !dayRows.isEmpty then (some reqDay, dayRows)
  else
    match latestDateLE snaps (reqDay + 1) with
    | none => (none, [])
    | some fd =>
      let rows := snapsAt snaps skuList fd
      if !rows.isEmpty then (some fd, rows) else (none, rows)

/-- Lookup `stockMap.get(sku) ?? 0`: the summed on-hand quantity of a SKU over
the resolved stock rows (0 when the SKU has no row). -/
def onHandOf (rows : List StockSnapshot) (sku : String) : ℚ :=
  ((rows.filter (fun s => decide (s.sku = sku))).map StockSnapshot.qty).sum

/-- Written from the spec sentence "on_hand must reflect exactly that
date's batches": the sum of one SKU's batch quantities on one day. -/
def batchSumOn (snaps : List StockSnapshot) (sku : String) (d : ℤ) : ℚ :=
  ((snaps.filter (fun s => decide (s.sku = sku) && decide (s.day = d))).map
    StockSnapshot.qty).sum

/-- Embedding of `getRecommendations` (state-relevant core): optionally recalculates
buffers first, resolves the stock rows and effective date, and maps every
listed SKU that has a buffer row to a recommendation row. Returns the
rows, the effective date, and the resulting buffers table. -/
def getRecommendations (autoRecalc : Bool) (salesRows : List SalesDailyRow)
    (lo : ℤ) (snaps : List StockSnapshot) (reqDay : ℤ)
    (skuList : List String) (t : String → Option Buffer) :
    List RecommendationRow × Option ℤ × (String → Option Buffer) :=
  let t1 := if autoRecalc then (recalcBuffers salesRows lo t).1 else t
  let rs := resolveStock snaps skuList reqDay
  let rows := skuList.filterMap fun sku =>
    (t1 sku).map fun b => recommendationRow sku b (onHandOf rs.2 sku)
  (rows, rs.1, t1)

/-- Call of `getRecommendations` with its default options (`autoRecalc = true`). -/
def getRecommendationsDefault (salesRows : List SalesDailyRow) (lo : ℤ)
    (snaps : List StockSnapshot) (reqDay : ℤ) (skuList : List String)
    (t : String → Option Buffer) :
    List RecommendationRow × Option ℤ × (String → Option Buffer) :=
  getRecommendations true salesRows lo snaps reqDay skuList t

/-- One `sales_events` order line as read by `rebuildSalesDaily`
(the order timestamp reduced to its day). -/
structure SalesEventRow where
  orderId : String
  day : ℤ
  sku : String
  warehouseId : Option String
  channel : Option String
  qty : ℚ
  netAmount : ℚ
deriving DecidableEq, Repr

/-- The natural key of a `sales_daily` rollup row
(org fixed; date, sku, warehouse, channel). -/
structure RollupKey where
  day : ℤ
  sku : String
  warehouseId : String
  channel : String
deriving DecidableEq, Repr

/-- The aggregated value of a rollup row:
`units = sum(qty)`, `revenue = sum(net_amount)`,
`orders = count(distinct order_id)`. -/
structure RollupVal where
  units : ℚ
  revenue : ℚ
  orders : Nat
deriving DecidableEq, Repr

/-- Sentinel warehouse id for events with no warehouse (WAREHOUSE_FALLBACK). -/
def WAREHOUSE_FALLBACK : String := "GLOBAL"

/-- Sentinel channel for events with no channel (CHANNEL_FALLBACK). -/
def CHANNEL_FALLBACK : String := "ALL"

/-- The rollup key of one event, with the `coalesce` sentinels
`GLOBAL` / `ALL` for missing warehouse or channel. -/
def eventKey (e : SalesEventRow) : RollupKey :=
  { day := e.day
    sku := e.sku
    warehouseId := e.warehouseId.getD WAREHOUSE_FALLBACK
    channel := e.channel.getD CHANNEL_FALLBACK }

/-- The events whose order date falls in the rebuild range
(`order_datetime BETWEEN from AND to end-of-day` at day granularity). -/
def eventsInRange (events : List SalesEventRow) (lo hi : ℤ) :
    List SalesEventRow :=
  events.filter (fun e => decide (lo ≤ e.day) && decide (e.day ≤ hi))

/-- The aggregate of the in-range events grouped under one key. -/
def rollupFor (events : List SalesEventRow) (lo hi : ℤ) (k : RollupKey) :
    RollupVal :=
  let es := (eventsInRange events lo hi).filter (fun e => decide (eventKey e = k))
  { units := (es.map SalesEventRow.qty).sum
    revenue := (es.map SalesEventRow.netAmount).sum
    orders := ((es.map SalesEventRow.orderId).dedup).length }

/-- The keys the `INSERT ... SELECT ... GROUP BY` of `rebuildSalesDaily`
produces: one per distinct key of an in-range event. -/
def touchedKeys (events : List SalesEventRow) (lo hi : ℤ) : List RollupKey :=
  ((eventsInRange events lo hi).map eventKey).dedup

/-- Embedding of `rebuildSalesDaily` from sales/daily-builder.ts as a transformer of
the rollup table: `ON CONFLICT DO UPDATE` overwrites every touched key
with the freshly aggregated value and leaves every other key alone
(the `updated_at = now()` column is not part of the modelled value). -/
def rebuildSalesDaily (events : List SalesEventRow) (lo hi : ℤ)
    (t : RollupKey → Option RollupVal) : RollupKey → Option RollupVal :=
  fun k =>
    if k ∈ touchedKeys events lo hi then some (rollupFor events lo hi k)
    else t k

/-- The KPI metrics returned by `getSkuKpi` that the spec's formulas
address. -/
structure KpiMetrics where
  dos : Option ℚ
  turns : ℚ
  medianDaysToSell : Option ℤ
  onHand : ℚ
  avgDailyDemand : ℚ
deriving DecidableEq, Repr

/-- Embedding of `getSkuKpi` from kpi/service.ts (lines 40-104), abstracted over the
three database aggregates it reads: the summed units of the window, the
Prisma `_avg` of the window's rollup rows, and the latest-day on-hand
sum. `diffDays` is `differenceInCalendarDays(to, from)`. -/
def getSkuKpi (totalUnits avgDailyDemand onHand : ℚ) (diffDays : ℤ) :
    KpiMetrics :=
  let windowDays : ℤ := max 1 (diffDays + 1)
  let dos := if 0 < avgDailyDemand then some (onHand / avgDailyDemand) else none
  let dailyUnits := if 0 < windowDays then totalUnits / (windowDays : ℚ) else 0
  let turns := if 0 < onHand then dailyUnits * 365 / onHand else 0
  let median : Option ℤ :=
    if 0 < turns then some (jsRound (365 / turns))
    else
      match dos with
      | some d => if d ≠ 0 then some (jsRound d) else none
      | none => none
  { dos := dos
    turns := turns
    medianDaysToSell := median
    onHand := onHand
    avgDailyDemand := avgDailyDemand }

/-- Function `computeLeadTime` from assistant/payload.ts:
the median of `lead_time_stats` when a row exists, else 7. -/
def computeLeadTime (medianStat : Option ℚ) : ℚ := medianStat.getD 7

/-- The lead-time resolution of `buildExplainPayload` (payload.ts line
62-63): `Number(buffer?.lead_time_days ?? computeLeadTime(...)) || 7`
(the trailing `|| 7` coerces a zero value back to 7). -/
def payloadLeadTimeDays (stored medianStat : Option ℚ) : ℚ :=
  let v := stored.getD (computeLeadTime medianStat)
  if v = 0 then 7 else v

/-- Named SKU constants for concrete instances. -/
def skuA : String := "A"

def skuB : String := "B"

def skuX : String := "X"

def skuY : String := "Y"

def skuZ : String := "Z"

/-! ### Helper lemmas -/

theorem mem_demandSkus_iff (rows : List SalesDailyRow) (lo : ℤ) (sku : String) :
    sku ∈ demandSkus rows lo ↔ ∃ r ∈ rows, lo ≤ r.day ∧ r.sku = sku := by
  simp only [demandSkus, List.mem_dedup, List.mem_map, List.mem_filter,
    Bool.and_eq_true, decide_eq_true_eq]
  constructor
  · rintro ⟨r, ⟨hr, hday⟩, hsku⟩
    exact ⟨r, hr, hday, hsku⟩
  · rintro ⟨r, hr, hday, hsku⟩
    exact ⟨r, ⟨hr, hday⟩, hsku⟩

theorem demandSkus_isEmpty_eq_false {rows : List SalesDailyRow} {lo : ℤ}
    {sku : String} (h : sku ∈ demandSkus rows lo) :
    (demandSkus rows lo).isEmpty = false := by
  cases hd : demandSkus rows lo with
  | nil => rw [hd] at h; cases h
  | cons a l => rfl

theorem recalc_writes_of_mem (rows : List SalesDailyRow) (lo : ℤ)
    (t : String → Option Buffer) (sku : String)
    (h : sku ∈ demandSkus rows lo) :
    (recalcBuffers rows lo t).1 sku = some (mkBuffer (avgUnits rows lo sku)) := by
  have hne := demandSkus_isEmpty_eq_false h
  simp [recalcBuffers, hne, h]

theorem touchedKeys_day_range (events : List SalesEventRow) (lo hi : ℤ)
    (k : RollupKey) (h : k ∈ touchedKeys events lo hi) :
    lo ≤ k.day ∧ k.day ≤ hi := by
  simp only [touchedKeys, eventsInRange, List.mem_dedup, List.mem_map,
    List.mem_filter, Bool.and_eq_true, decide_eq_true_eq] at h
  obtain ⟨e, ⟨_, hlo, hhi⟩, hk⟩ := h
  subst hk
  exact ⟨hlo, hhi⟩

theorem onHandOf_snapsAt (snaps : List StockSnapshot) (skuList : List String)
    (d : ℤ) (sku : String) (h : sku ∈ skuList) :
    onHandOf (snapsAt snaps skuList d) sku = batchSumOn snaps sku d := by
  unfold onHandOf snapsAt batchSumOn
  rw [List.filter_filter]
  have hfil : snaps.filter
        (fun a => decide (a.sku = sku) && (decide (a.day = d) && decide (a.sku ∈ skuList)))
      = snaps.filter (fun s => decide (s.sku = sku) && decide (s.day = d)) := by
    apply List.filter_congr
    intro a _
    by_cases hs : a.sku = sku
    · simp [hs, h]
    · simp [hs]
  rw [hfil]

/-! ### C4 -/

/-- C4: for every recommendation row, `suggestedQty` equals
`max(0, ceil(buffer_qty - stock_position))` with
`stock_position = on_hand + inbound - reservations` instantiated at the
code's `inbound = 0` and `reservations = 0`; it is never negative (whole
number by type) and rounds up (it is at least the raw order quantity). -/
theorem suggested_qty_formula_nonneg (sku : String) (b : Buffer) (onHand : ℚ) :
    (recommendationRow sku b onHand).suggestedQty
        = max 0 ⌈b.bufferQty - stockPosition onHand 0 0⌉ ∧
    0 ≤ (recommendationRow sku b onHand).suggestedQty ∧
    b.bufferQty - stockPosition onHand 0 0
        ≤ ((recommendationRow sku b onHand).suggestedQty : ℚ) := by
  have h1 : (recommendationRow sku b onHand).suggestedQty
      = max 0 ⌈b.bufferQty - (onHand + 0)⌉ := rfl
  have h2 : b.bufferQty - stockPosition onHand 0 0 = b.bufferQty - (onHand + 0) := by
    unfold stockPosition; ring
  refine ⟨?_, ?_, ?_⟩
  · rw [h1, h2]
  · rw [h1]; exact le_max_left _ _
  · rw [h1, h2]
    calc b.bufferQty - (onHand + 0) ≤ (⌈b.bufferQty - (onHand + 0)⌉ : ℚ) :=
          Int.le_ceil _
      _ ≤ ((max 0 ⌈b.bufferQty - (onHand + 0)⌉ : ℤ) : ℚ) := by
          exact_mod_cast le_max_right _ _

/-! ### C7 -/

/-- C7: `rebuildSalesDaily` is idempotent over a fixed event set and date
range (running it twice yields the same rollup table as running it once),
and it never writes a rollup key whose date lies outside the range. -/
theorem rebuild_idempotent_range_frame (events : List SalesEventRow)
    (lo hi : ℤ) (t : RollupKey → Option RollupVal) :
    rebuildSalesDaily events lo hi (rebuildSalesDaily events lo hi t)
        = rebuildSalesDaily events lo hi t ∧
    ∀ k : RollupKey, (k.day < lo ∨ hi < k.day) →
      rebuildSalesDaily events lo hi t k = t k := by
  constructor
  · funext k
    unfold rebuildSalesDaily
    by_cases h : k ∈ touchedKeys events lo hi <;> simp [h]
  · intro k hk
    have hnm : k ∉ touchedKeys events lo hi := by
      intro hmem
      obtain ⟨h1, h2⟩ := touchedKeys_day_range events lo hi k hmem
      rcases hk with hk | hk <;> omega
    unfold rebuildSalesDaily
    simp [hnm]

def eventsC7 : List SalesEventRow :=
  [{ orderId := "o1", day := 1, sku := "S", warehouseId := none,
     channel := none, qty := 2, netAmount := 20 },
   { orderId := "o1", day := 3, sku := "S", warehouseId := none,
     channel := none, qty := 3, netAmount := 30 }]

def rollupT0 : RollupKey → Option RollupVal := fun _ => none

def keyOut : RollupKey :=
  { day := 10, sku := "S", warehouseId := WAREHOUSE_FALLBACK, channel := CHANNEL_FALLBACK }

theorem rebuild_idempotent_range_frame_witness :
    rebuildSalesDaily eventsC7 0 5 (rebuildSalesDaily eventsC7 0 5 rollupT0)
        = rebuildSalesDaily eventsC7 0 5 rollupT0 ∧
    rebuildSalesDaily eventsC7 0 5 rollupT0 keyOut = rollupT0 keyOut :=
  ⟨(rebuild_idempotent_range_frame eventsC7 0 5 rollupT0).1,
   (rebuild_idempotent_range_frame eventsC7 0 5 rollupT0).2 keyOut
     (by right; simp [keyOut])⟩

/-! ### C8 -/

/-- C8: `recalcBuffers` leaves untouched the buffer row of any SKU with no
rollup row in the lookback window, and when the window holds no rollup row
at all it performs no writes and returns `{updated: 0}`. -/
theorem recalc_frame_and_noop (rows : List SalesDailyRow) (lo : ℤ)
    (t : String → Option Buffer) :
    (∀ sku : String, (∀ r ∈ rows, lo ≤ r.day → r.sku ≠ sku) →
      (recalcBuffers rows lo t).1 sku = t sku) ∧
    (rows.filter (fun r => decide (lo ≤ r.day)) = [] →
      recalcBuffers rows lo t = (t, 0)) := by
  constructor
  · intro sku h
    have hnm : sku ∉ demandSkus rows lo := by
      rw [mem_demandSkus_iff]
      rintro ⟨r, hr, hday, hsku⟩
      exact h r hr hday hsku
    unfold recalcBuffers
    by_cases he : (demandSkus rows lo).isEmpty <;> simp [he, hnm]
  · intro h
    have hskus : demandSkus rows lo = [] := by
      unfold demandSkus
      rw [h]
      rfl
    unfold recalcBuffers
    simp [hskus]

def rowsC8 : List SalesDailyRow := [{ sku := skuX, day := 0, units := 10 }]

def buffersC8 : String → Option Buffer :=
  fun s => if s = skuZ then some (mkBuffer 3) else none

theorem recalc_frame_and_noop_witness :
    (recalcBuffers rowsC8 0 buffersC8).1 skuZ = buffersC8 skuZ ∧
    recalcBuffers [] 0 buffersC8 = (buffersC8, 0) :=
  ⟨(recalc_frame_and_noop rowsC8 0 buffersC8).1 skuZ
     (by intro r hr hday; simp [rowsC8] at hr; simp [hr, skuX, skuZ]),
   (recalc_frame_and_noop [] 0 buffersC8).2 (by rfl)⟩

/-! ### C10 -/

def rowsC10 : List SalesDailyRow := [{ sku := skuX, day := 0, units := 10 }]

def emptyBuffers : String → Option Buffer := fun _ => none

/-- C10: with its default options (`autoRecalc = true`),
`getRecommendations` first runs `recalcBuffers` and its resulting buffers
table is exactly the recalculated one (a genuine write, as the concrete
instance shows); passing `autoRecalc = false` leaves the table unchanged. -/
theorem auto_recalc_side_effect (salesRows : List SalesDailyRow) (lo : ℤ)
    (snaps : List StockSnapshot) (reqDay : ℤ) (skuList : List String)
    (t : String → Option Buffer) :
    (getRecommendationsDefault salesRows lo snaps reqDay skuList t).2.2
        = (recalcBuffers salesRows lo t).1 ∧
    (getRecommendations false salesRows lo snaps reqDay skuList t).2.2 = t ∧
    getRecommendationsDefault salesRows lo snaps reqDay skuList t
        = getRecommendations true salesRows lo snaps reqDay skuList t ∧
    (getRecommendationsDefault rowsC10 0 [] 0 [] emptyBuffers).2.2 skuX
        ≠ emptyBuffers skuX := by
  refine ⟨rfl, rfl, rfl, ?_⟩
  have hx : skuX ∈ demandSkus rowsC10 0 := by
    simp [demandSkus, rowsC10, List.filter, List.dedup]
  have h := recalc_writes_of_mem rowsC10 0 emptyBuffers skuX hx
  show (recalcBuffers rowsC10 0 emptyBuffers).1 skuX ≠ emptyBuffers skuX
  rw [h]
  simp [emptyBuffers]

/-! ### C3 -/

/-- C3: every buffer written by `recalcBuffers` has
`red_th = buffer_qty / 3` and `yellow_th = 2 * buffer_qty / 3`, hence
(for `buffer_qty ≥ 0`) `red_th ≤ yellow_th ≤ buffer_qty`, and
`resolveZone` partitions the on-hand axis with no gaps. -/
theorem buffer_thresholds_zone_partition (rows : List SalesDailyRow) (lo : ℤ)
    (t : String → Option Buffer) (sku : String)
    (hsku : sku ∈ demandSkus rows lo) :
    ∃ b : Buffer, (recalcBuffers rows lo t).1 sku = some b ∧
      b.redTh = b.bufferQty / 3 ∧
      b.yellowTh = 2 * b.bufferQty / 3 ∧
      (0 ≤ b.bufferQty → b.redTh ≤ b.yellowTh ∧ b.yellowTh ≤ b.bufferQty) ∧
      ∀ onHand : ℚ,
        (resolveZone onHand b.redTh b.yellowTh = Zone.red ↔ onHand ≤ b.redTh) ∧
        (resolveZone onHand b.redTh b.yellowTh = Zone.yellow ↔
          b.redTh < onHand ∧ onHand ≤ b.yellowTh) ∧
        (0 ≤ b.bufferQty →
          (resolveZone onHand b.redTh b.yellowTh = Zone.green ↔
            b.yellowTh < onHand)) := by
  refine ⟨mkBuffer (avgUnits rows lo sku),
    recalc_writes_of_mem rows lo t sku hsku, rfl, by unfold mkBuffer; ring, ?_, ?_⟩
  · intro hq
    unfold mkBuffer at hq ⊢
    constructor <;> · simp only; linarith
  · intro onHand
    have hry : 0 ≤ (mkBuffer (avgUnits rows lo sku)).bufferQty →
        (mkBuffer (avgUnits rows lo sku)).redTh
          ≤ (mkBuffer (avgUnits rows lo sku)).yellowTh := by
      intro hq
      unfold mkBuffer at hq ⊢
      simp only
      linarith
    unfold resolveZone
    by_cases h1 : onHand ≤ (mkBuffer (avgUnits rows lo sku)).redTh
    · rw [if_pos h1]
      refine ⟨by simp [h1], ?_, ?_⟩
      · simp only [reduceCtorEq, false_iff, not_and]
        intro h
        exact absurd h1 (not_le.mpr h)
      · intro hq
        simp only [reduceCtorEq, false_iff, not_lt]
        exact le_trans h1 (hry hq)
    · rw [if_neg h1]
      by_cases h2 : onHand ≤ (mkBuffer (avgUnits rows lo sku)).yellowTh
      · rw [if_pos h2]
        refine ⟨by simp [h1], ?_, ?_⟩
        · simp only [true_iff]
          exact ⟨not_le.mp h1, h2⟩
        · intro hq
          simp only [reduceCtorEq, false_iff, not_lt]
          exact h2
      · rw [if_neg h2]
        refine ⟨by simp [h1], ?_, ?_⟩
        · simp only [reduceCtorEq, false_iff, not_and]
          intro _
          exact h2
        · intro hq
          simp only [true_iff]
          exact not_le.mp h2

def rowsC3 : List SalesDailyRow := [{ sku := skuY, day := 0, units := 5 }]

theorem buffer_thresholds_zone_partition_witness :
    ∃ b : Buffer, (recalcBuffers rowsC3 0 emptyBuffers).1 skuY = some b ∧
      b.redTh = b.bufferQty / 3 ∧
      b.yellowTh = 2 * b.bufferQty / 3 ∧
      (0 ≤ b.bufferQty → b.redTh ≤ b.yellowTh ∧ b.yellowTh ≤ b.bufferQty) ∧
      ∀ onHand : ℚ,
        (resolveZone onHand b.redTh b.yellowTh = Zone.red ↔ onHand ≤ b.redTh) ∧
        (resolveZone onHand b.redTh b.yellowTh = Zone.yellow ↔
          b.redTh < onHand ∧ onHand ≤ b.yellowTh) ∧
        (0 ≤ b.bufferQty →
          (resolveZone onHand b.redTh b.yellowTh = Zone.green ↔
            b.yellowTh < onHand)) :=
  buffer_thresholds_zone_partition rowsC3 0 emptyBuffers skuY
    (by simp [demandSkus, rowsC3, List.filter, List.dedup])

/-! ### C1 -/

def rowsC1 : List SalesDailyRow :=
  [{ sku := skuX, day := 10, units := 10 }, { sku := skuX, day := 20, units := 10 }]

/-- C1 counterexample: a SKU with rollup rows on only 2 days of a 60-day
window (days 0..59, rows on days 10 and 20, 10 units each). The claim
demands `avg_daily_demand = (10 + 10) / 60 = 1/3`; `recalcBuffers` writes
`(10 + 10) / 2 = 10` (the Prisma `_avg` over the rows present). -/
theorem avg_demand_counterexample :
    ((recalcBuffers rowsC1 0 emptyBuffers).1 skuX).map Buffer.avgDailyDemand
        = some 10 ∧
    (10 : ℚ) ≠ (10 + 10) / 60 := by
  constructor
  · have hx : skuX ∈ demandSkus rowsC1 0 := by
      simp [demandSkus, rowsC1, List.filter, List.dedup]
    rw [recalc_writes_of_mem rowsC1 0 emptyBuffers skuX hx]
    simp [mkBuffer, avgUnits, demandRowsFor, rowsC1, List.filter]
  · norm_num

/-- C1 amended: the average daily demand used by buffer recalculation is
the mean of units over the rollup rows present in the window (sum of
units divided by the number of rollup rows); days with no rollup row are
skipped, not zero-filled. -/
theorem avg_demand_mean_of_present_rows (rows : List SalesDailyRow) (lo : ℤ)
    (t : String → Option Buffer) (sku : String)
    (hsku : sku ∈ demandSkus rows lo) :
    ((recalcBuffers rows lo t).1 sku).map Buffer.avgDailyDemand
        = some (((demandRowsFor rows lo sku).map SalesDailyRow.units).sum
            / ((demandRowsFor rows lo sku).length : ℚ)) := by
  rw [recalc_writes_of_mem rows lo t sku hsku]
  simp [mkBuffer, avgUnits]

theorem avg_demand_mean_of_present_rows_witness :
    ((recalcBuffers rowsC1 0 (fun _ => some (mkBuffer 0))).1 skuX).map
        Buffer.avgDailyDemand
      = some (((demandRowsFor rowsC1 0 skuX).map SalesDailyRow.units).sum
          / ((demandRowsFor rowsC1 0 skuX).length : ℚ)) :=
  avg_demand_mean_of_present_rows rowsC1 0 (fun _ => some (mkBuffer 0)) skuX
    (by simp [demandSkus, rowsC1, List.filter, List.dedup])

/-! ### C2 -/

def rowsC2 : List SalesDailyRow := [{ sku := skuX, day := 0, units := 10 }]

def storedBuffersC2 : String → Option Buffer :=
  fun s =>
    if s = skuX then
      some { leadTimeDays := 14, avgDailyDemand := 2, bufferQty := 28,
             redTh := 28/3, yellowTh := 56/3 }
    else none

/-- C2 counterexample: a SKU whose stored buffer carries
`lead_time_days = 14` is recalculated with the fixed 7-day value, not with
the stored one the claimed resolution order would pick first. -/
theorem lead_time_fixed_counterexample :
    (storedBuffersC2 skuX).map Buffer.leadTimeDays = some 14 ∧
    ((recalcBuffers rowsC2 0 storedBuffersC2).1 skuX).map Buffer.leadTimeDays
        = some 7 ∧
    (7 : ℚ) ≠ 14 := by
  refine ⟨by simp [storedBuffersC2], ?_, by norm_num⟩
  have hx : skuX ∈ demandSkus rowsC2 0 := by
    simp [demandSkus, rowsC2, List.filter, List.dedup]
  rw [recalc_writes_of_mem rowsC2 0 storedBuffersC2 skuX hx]
  simp [mkBuffer]

/-- C2 amended: `recalcBuffers` always writes the fixed fallback of 7
days as the lead time; the claimed resolution order — stored
`Buffer.lead_time_days` if present, else the `LeadTimeStat` median, else
7 — is implemented by `buildExplainPayload`, not by buffer
recalculation. -/
theorem lead_time_resolution (rows : List SalesDailyRow) (lo : ℤ)
    (t : String → Option Buffer) (sku : String)
    (hsku : sku ∈ demandSkus rows lo) (stored med : Option ℚ) :
    ((recalcBuffers rows lo t).1 sku).map Buffer.leadTimeDays = some 7 ∧
    (∀ v : ℚ, stored = some v → v ≠ 0 → payloadLeadTimeDays stored med = v) ∧
    (∀ m : ℚ, stored = none → med = some m → m ≠ 0 →
      payloadLeadTimeDays stored med = m) ∧
    (stored = none → med = none → payloadLeadTimeDays stored med = 7) := by
  refine ⟨?_, ?_, ?_, ?_⟩
  · rw [recalc_writes_of_mem rows lo t sku hsku]
    simp [mkBuffer]
  · intro v hv hne
    subst hv
    simp [payloadLeadTimeDays, hne]
  · intro m hs hm hne
    subst hs; subst hm
    simp [payloadLeadTimeDays, computeLeadTime, hne]
  · intro hs hm
    subst hs; subst hm
    simp [payloadLeadTimeDays, computeLeadTime]

theorem lead_time_resolution_witness :
    ((recalcBuffers rowsC2 0 storedBuffersC2).1 skuX).map Buffer.leadTimeDays
        = some 7 ∧
    payloadLeadTimeDays (some 14) (some 10) = 14 ∧
    payloadLeadTimeDays none (some 10) = 10 ∧
    payloadLeadTimeDays none none = 7 := by
  have hx : skuX ∈ demandSkus rowsC2 0 := by
    simp [demandSkus, rowsC2, List.filter, List.dedup]
  exact ⟨(lead_time_resolution rowsC2 0 storedBuffersC2 skuX hx (some 14) (some 10)).1,
    (lead_time_resolution rowsC2 0 storedBuffersC2 skuX hx (some 14) (some 10)).2.1
      14 rfl (by norm_num),
    (lead_time_resolution rowsC2 0 storedBuffersC2 skuX hx none (some 10)).2.2.1
      10 rfl rfl (by norm_num),
    (lead_time_resolution rowsC2 0 storedBuffersC2 skuX hx none none).2.2.2 rfl rfl⟩

/-! ### C5 -/

/-- C5 counterexample: at `avg_daily_demand = 10`, `on_hand = 400` the
overstock flag is raised, but its ratio is `400 / 300` rounded to `1.33`
(on-hand over the 30-day demand), not `≈ 1.21` (which would be on-hand
over the 110% threshold): `1.33` is not within `0.01` of `1.21`. -/
theorem overstock_ratio_counterexample :
    (detectOverstock 400 10).map Overstock.ratio = some (133/100) ∧
    ¬ ((133 : ℚ)/100 - 121/100 ≤ 1/100) := by
  constructor
  · norm_num [detectOverstock, roundNumber, jsRound]
  · norm_num

/-- C5 amended: the overstock flag is raised exactly when
`avg_daily_demand > 0` and `on_hand > avg_daily_demand * 30 * 1.1`, and
it then carries `ratio = on_hand / (avg_daily_demand * 30)` rounded to
two decimals (with the rounded percentage used in the message). -/
theorem overstock_condition_ratio (onHand avg : ℚ) :
    ((detectOverstock onHand avg).isSome ↔
        0 < avg ∧ avg * 30 * (11/10) < onHand) ∧
    (0 < avg → avg * 30 * (11/10) < onHand →
      detectOverstock onHand avg =
        some { ratio := roundNumber (onHand / (avg * 30)) 2,
               percent := jsRound (onHand / (avg * 30) * 100) }) := by
  by_cases h0 : avg ≤ 0
  · have hns : detectOverstock onHand avg = none := by
      simp [detectOverstock, h0]
    constructor
    · rw [hns]
      simp only [Option.isSome_none, Bool.false_eq_true, false_iff, not_and]
      intro hpos
      exact absurd hpos (not_lt.mpr h0)
    · intro hpos _
      exact absurd hpos (not_lt.mpr h0)
  · push_neg at h0
    have hd30 : (0:ℚ) < avg * 30 := by positivity
    have hiff : (onHand / (avg * 30) ≤ 11/10) ↔
        ¬ (avg * 30 * (11/10) < onHand) := by
      rw [div_le_iff₀ hd30, not_lt]
      constructor <;> intro h <;> linarith
    by_cases hr : onHand / (avg * 30) ≤ 11/10
    · have hnone : detectOverstock onHand avg = none := by
        simp only [detectOverstock]
        rw [if_neg (not_le.mpr h0), if_neg (not_le.mpr hd30), if_pos hr]
      constructor
      · rw [hnone]
        simp only [Option.isSome_none, Bool.false_eq_true, false_iff, not_and]
        intro _
        exact hiff.mp hr
      · intro _ hlt
        exact absurd hlt (hiff.mp hr)
    · have hsome : detectOverstock onHand avg =
          some { ratio := roundNumber (onHand / (avg * 30)) 2,
                 percent := jsRound (onHand / (avg * 30) * 100) } := by
        simp only [detectOverstock]
        rw [if_neg (not_le.mpr h0), if_neg (not_le.mpr hd30), if_neg hr]
      constructor
      · rw [hsome]
        simp only [Option.isSome_some, true_iff]
        exact ⟨h0, not_not.mp (mt hiff.mpr hr)⟩
      · intro _ _
        exact hsome

theorem overstock_condition_ratio_witness :
    ((detectOverstock 400 10).isSome ↔
        (0:ℚ) < 10 ∧ (10:ℚ) * 30 * (11/10) < 400) ∧
    detectOverstock 400 10 =
      some { ratio := roundNumber (400 / ((10:ℚ) * 30)) 2,
             percent := jsRound (400 / ((10:ℚ) * 30) * 100) } :=
  ⟨(overstock_condition_ratio 400 10).1,
   (overstock_condition_ratio 400 10).2 (by norm_num) (by norm_num)⟩

/-! ### C6 -/

def snapsC6 : List StockSnapshot :=
  [{ sku := skuA, day := 0, batch := "b1", qty := 5 },
   { sku := skuB, day := 3, batch := "b1", qty := 7 }]

def skuListC6 : List String := [skuA, skuB]

/-- C6 counterexample: requested day 5; SKU "A" has no snapshot on day 5
but one on day 0 (its most recent prior date), while another SKU "B" of
the same warehouse has one on day 3. The claim demands
`effectiveDate = 0` with `on_hand("A") = 5` (that date's batch sum); the
code returns `effectiveDate = 3` (the warehouse-wide latest date) and
`on_hand("A") = 0`. -/
theorem fallback_date_counterexample :
    snapsAt snapsC6 skuListC6 5 = [] ∧
    batchSumOn snapsC6 skuA 0 = 5 ∧
    (resolveStock snapsC6 skuListC6 5).1 = some 3 ∧
    some (3:ℤ) ≠ some (0:ℤ) ∧
    onHandOf (resolveStock snapsC6 skuListC6 5).2 skuA = 0 ∧
    (0:ℚ) ≠ 5 ∧
    (getRecommendations false [] 0 snapsC6 5 skuListC6 emptyBuffers).2.1
        = some 3 := by
  refine ⟨by simp [snapsAt, snapsC6, skuListC6, List.filter],
    by simp [batchSumOn, snapsC6, List.filter], ?_, by simp, ?_, by norm_num, ?_⟩
  · simp [resolveStock, snapsAt, latestDateLE, snapsC6, skuListC6, List.filter,
      List.max?]
  · simp [resolveStock, snapsAt, latestDateLE, onHandOf, snapsC6, skuListC6,
      List.filter, List.max?, skuA, skuB]
  · simp [getRecommendations, resolveStock, snapsAt, latestDateLE, snapsC6,
      skuListC6, List.filter, List.max?]

/-- C6 amended: when no listed SKU has a snapshot on the requested day,
the fallback date is the most recent snapshot day of the warehouse as a
whole with day ≤ requested + 1 (any SKU, so possibly later than a given
SKU's own most recent prior date); if any listed SKU has a snapshot on
that day, it becomes the returned `effectiveDate` and each listed SKU's
`on_hand` is exactly the sum of its batch quantities on that day (zero
when it has no batch there); otherwise — when no listed SKU has a
snapshot on the fallback day, or no warehouse snapshot with
day ≤ requested + 1 exists at all — `effectiveDate` is null. -/
theorem fallback_date_resolution (snaps : List StockSnapshot)
    (skuList : List String) (reqDay : ℤ)
    (h0 : snapsAt snaps skuList reqDay = []) :
    (∀ fd : ℤ, latestDateLE snaps (reqDay + 1) = some fd →
      snapsAt snaps skuList fd ≠ [] →
      (resolveStock snaps skuList reqDay).1 = some fd ∧
      (∀ sku ∈ skuList,
        onHandOf (resolveStock snaps skuList reqDay).2 sku
          = batchSumOn snaps sku fd) ∧
      ∀ (a : Bool) (salesRows : List SalesDailyRow) (lo : ℤ)
          (t : String → Option Buffer),
        (getRecommendations a salesRows lo snaps reqDay skuList t).2.1
          = some fd) ∧
    (∀ fd : ℤ, latestDateLE snaps (reqDay + 1) = some fd →
      snapsAt snaps skuList fd = [] →
      (resolveStock snaps skuList reqDay).1 = none ∧
      ∀ (a : Bool) (salesRows : List SalesDailyRow) (lo : ℤ)
          (t : String → Option Buffer),
        (getRecommendations a salesRows lo snaps reqDay skuList t).2.1
          = none) ∧
    (latestDateLE snaps (reqDay + 1) = none →
      (resolveStock snaps skuList reqDay).1 = none ∧
      ∀ (a : Bool) (salesRows : List SalesDailyRow) (lo : ℤ)
          (t : String → Option Buffer),
        (getRecommendations a salesRows lo snaps reqDay skuList t).2.1
          = none) := by
  refine ⟨?_, ?_, ?_⟩
  · intro fd hfd hne
    have h2 : (snapsAt snaps skuList fd).isEmpty = false := by
      cases hx : snapsAt snaps skuList fd with
      | nil => exact absurd hx hne
      | cons a l => rfl
    have hrs : resolveStock snaps skuList reqDay
        = (some fd, snapsAt snaps skuList fd) := by
      simp [resolveStock, h0, hfd, h2]
    refine ⟨by rw [hrs], ?_, ?_⟩
    · intro sku hs
      rw [hrs]
      exact onHandOf_snapsAt snaps skuList fd sku hs
    · intro a salesRows lo t
      simp [getRecommendations, hrs]
  · intro fd hfd hempty
    have hrs : resolveStock snaps skuList reqDay = (none, []) := by
      simp [resolveStock, h0, hfd, hempty]
    exact ⟨by rw [hrs], fun a salesRows lo t => by
      simp [getRecommendations, hrs]⟩
  · intro hnone
    have hrs : resolveStock snaps skuList reqDay = (none, []) := by
      simp [resolveStock, h0, hnone]
    exact ⟨by rw [hrs], fun a salesRows lo t => by
      simp [getRecommendations, hrs]⟩

def snapsC6b : List StockSnapshot :=
  [{ sku := skuA, day := 2, batch := "b1", qty := 4 }]

def snapsC6c : List StockSnapshot :=
  [{ sku := skuB, day := 3, batch := "b1", qty := 7 }]

theorem fallback_date_resolution_witness :
    ((resolveStock snapsC6b [skuA] 5).1 = some 2 ∧
      onHandOf (resolveStock snapsC6b [skuA] 5).2 skuA
        = batchSumOn snapsC6b skuA 2 ∧
      (getRecommendations false [] 0 snapsC6b 5 [skuA] emptyBuffers).2.1
        = some 2) ∧
    ((resolveStock snapsC6c [skuA] 5).1 = none ∧
      (getRecommendations false [] 0 snapsC6c 5 [skuA] emptyBuffers).2.1
        = none) ∧
    ((resolveStock [] [skuA] 5).1 = none ∧
      (getRecommendations false [] 0 [] 5 [skuA] emptyBuffers).2.1
        = none) := by
  have hb := (fallback_date_resolution snapsC6b [skuA] 5
      (by simp [snapsAt, snapsC6b, List.filter])).1 2
    (by simp [latestDateLE, snapsC6b, List.filter, List.max?])
    (by simp [snapsAt, snapsC6b, List.filter])
  have hc := (fallback_date_resolution snapsC6c [skuA] 5
      (by simp [snapsAt, snapsC6c, List.filter])).2.1 3
    (by simp [latestDateLE, snapsC6c, List.filter, List.max?])
    (by simp [snapsAt, snapsC6c, List.filter, skuA, skuB])
  have hn := (fallback_date_resolution [] [skuA] 5
      (by simp [snapsAt, List.filter])).2.2
    (by simp [latestDateLE, List.filter, List.max?])
  exact ⟨⟨hb.1, hb.2.1 skuA (by simp), hb.2.2 false [] 0 emptyBuffers⟩,
    ⟨hc.1, hc.2 false [] 0 emptyBuffers⟩,
    ⟨hn.1, hn.2 false [] 0 emptyBuffers⟩⟩

/-! ### C9 -/

/-- C9: `getSkuKpi` computes days-of-supply as `on_hand / avg_daily_demand`
(null when demand is zero), turns as
`(total units / window length) * 365 / on_hand` (0 when on-hand is 0), and
median days-to-sell from turns when turns > 0 and otherwise from the
(nonzero) days-of-supply. -/
theorem kpi_formulas (totalUnits avg onHand : ℚ) (diffDays : ℤ) :
    ((getSkuKpi totalUnits avg onHand diffDays).dos
        = if 0 < avg then some (onHand / avg) else none) ∧
    (avg = 0 → (getSkuKpi totalUnits avg onHand diffDays).dos = none) ∧
    (0 < onHand → (getSkuKpi totalUnits avg onHand diffDays).turns
        = totalUnits / ((max 1 (diffDays + 1) : ℤ) : ℚ) * 365 / onHand) ∧
    (onHand = 0 → (getSkuKpi totalUnits avg onHand diffDays).turns = 0) ∧
    (0 < (getSkuKpi totalUnits avg onHand diffDays).turns →
      (getSkuKpi totalUnits avg onHand diffDays).medianDaysToSell
        = some (jsRound (365 / (getSkuKpi totalUnits avg onHand diffDays).turns))) ∧
    (¬ 0 < (getSkuKpi totalUnits avg onHand diffDays).turns →
      ∀ d : ℚ, (getSkuKpi totalUnits avg onHand diffDays).dos = some d →
        d ≠ 0 →
        (getSkuKpi totalUnits avg onHand diffDays).medianDaysToSell
          = some (jsRound d)) := by
  have hw : (0:ℤ) < max 1 (diffDays + 1) :=
    lt_of_lt_of_le one_pos (le_max_left _ _)
  refine ⟨?_, ?_, ?_, ?_, ?_, ?_⟩
  · simp [getSkuKpi]
  · intro h
    subst h
    simp [getSkuKpi]
  · intro h
    simp [getSkuKpi, hw, h]
  · intro h
    subst h
    simp [getSkuKpi]
  · intro h
    simp only [getSkuKpi] at h ⊢
    rw [if_pos h]
  · intro h d hd hne
    simp only [getSkuKpi] at h hd ⊢
    rw [if_neg h]
    by_cases ha : 0 < avg
    · rw [if_pos ha] at hd
      have hd2 : onHand / avg = d := by
        simpa using hd
      rw [if_pos ha]
      simp [hd2, hne]
    · rw [if_neg ha] at hd
      cases hd

theorem kpi_formulas_witness :
    (getSkuKpi 60 2 30 29).dos = (if (0:ℚ) < 2 then some ((30:ℚ)/2) else none) ∧
    (getSkuKpi 60 2 30 29).turns
        = 60 / ((max 1 ((29:ℤ) + 1) : ℤ) : ℚ) * 365 / 30 ∧
    (getSkuKpi 60 2 30 29).medianDaysToSell
        = some (jsRound (365 / (getSkuKpi 60 2 30 29).turns)) :=
  ⟨(kpi_formulas 60 2 30 29).1,
   (kpi_formulas 60 2 30 29).2.2.1 (by norm_num),
   (kpi_formulas 60 2 30 29).2.2.2.2.1 (by norm_num [getSkuKpi])⟩

theorem suggested_qty_formula_nonneg_witness :
    (recommendationRow skuX (mkBuffer 10) 20).suggestedQty
        = max 0 ⌈(mkBuffer 10).bufferQty - stockPosition 20 0 0⌉ ∧
    0 ≤ (recommendationRow skuX (mkBuffer 10) 20).suggestedQty ∧
    (mkBuffer 10).bufferQty - stockPosition 20 0 0
        ≤ ((recommendationRow skuX (mkBuffer 10) 20).suggestedQty : ℚ) :=
  suggested_qty_formula_nonneg skuX (mkBuffer 10) 20

theorem auto_recalc_side_effect_witness :
    (getRecommendationsDefault rowsC10 0 [] 0 [] emptyBuffers).2.2
        = (recalcBuffers rowsC10 0 emptyBuffers).1 ∧
    (getRecommendations false rowsC10 0 [] 0 [] emptyBuffers).2.2
        = emptyBuffers ∧
    getRecommendationsDefault rowsC10 0 [] 0 [] emptyBuffers
        = getRecommendations true rowsC10 0 [] 0 [] emptyBuffers ∧
    (getRecommendationsDefault rowsC10 0 [] 0 [] emptyBuffers).2.2 skuX
        ≠ emptyBuffers skuX :=
  auto_recalc_side_effect rowsC10 0 [] 0 [] emptyBuffers
